import Mathlib

/-!
Verification of the media-group aggregation and fan-out forwarding engine of
the Telegram-Helper repository (`src/4.0.2/bot.py`), against its
natural-language specification.

The Python source is shallowly embedded: each Lean definition mirrors one
Python function or method of `bot.py` (names are kept).  Python truthiness of
optional strings, the `defaultdict`/timer-dictionary state of
`MediaGroupHandler`, and the asyncio cancellation semantics of the per-group
debounce timers are made explicit.
-/

/-- Python truthiness of an `Optional[str]` attribute: `None` and the empty
string are falsy. -/
def optStrTruthy : Option String → Bool
  | none => false
  | some s => decide (s ≠ "")

/-- Python `a or b or ""` over two `Optional[str]` values (first truthy value,
else `""`). -/
def pyOrStr (a b : Option String) : String :=
  if optStrTruthy a then a.getD ""
  else if optStrTruthy b then b.getD ""
  else ""

/-- `needle` occurs as a prefix of `hay` (over character lists). -/
def prefixOfList : List Char → List Char → Bool
  | [], _ => true
  | _ :: _, [] => false
  | a :: as, b :: bs => a == b && prefixOfList as bs

/-- `needle` occurs as a contiguous sublist of `hay`. -/
def subListOf (needle : List Char) : List Char → Bool
  | [] => needle.isEmpty
  | b :: bs => prefixOfList needle (b :: bs) || subListOf needle bs

/-- Python `needle in hay` on strings: substring containment. -/
def containsSub (hay needle : String) : Bool :=
  subListOf needle.data hay.data

/-- Python `str.lower()` (character-wise lowering, as used on keywords and
message text in `should_filter_message`). -/
def lowerStr (s : String) : String :=
  String.mk (s.data.map Char.toLower)

/-- Embedding of a `telegram.Message` as consumed by `bot.py`: exactly the
attributes the source probes.  String attributes are `Option String` (Python
`None` possible); `photo` is the list of photo-size file ids (the source uses
`message.photo[-1]`); media attachments (`video`, …) are `Option` file ids,
truthy iff present. -/
structure Msg where
  message_id : Nat
  chat_id : Int
  media_group_id : Option String
  text : Option String
  caption : Option String
  photo : List String
  video : Option String
  document : Option String
  audio : Option String
  voice : Option String
  sticker : Option String
  animation : Option String
  location : Bool
  poll : Bool
  chat_title : Option String
  date_str : String
  from_user : Option String
  deriving DecidableEq, Repr

/-- A message value with every attribute absent; concrete messages in the
development are built from it by record update. -/
def baseMsg : Msg :=
  ⟨0, 0, none, none, none, [], none, none, none, none, none, none,
   false, false, none, "", none⟩

/-- The content-type tags returned by `get_message_type`. -/
inductive ContentType
  | text | photo | video | document | audio | voice
  | sticker | animation | location | poll | other
  deriving DecidableEq, Repr

/-- `TelegramForwardBot.get_message_type` (bot.py:1000-1023): the elif-chain
of attribute probes, in source order. -/
def get_message_type (m : Msg) : ContentType :=
  if optStrTruthy m.text then .text
  else if m.photo ≠ [] then .photo
  else if m.video.isSome then .video
  else if m.document.isSome then .document
  else if m.audio.isSome then .audio
  else if m.voice.isSome then .voice
  else if m.sticker.isSome then .sticker
  else if m.animation.isSome then .animation
  else if m.location then .location
  else if m.poll then .poll
  else .other

/-- The `deepseek_settings` slice of the configuration as the rewriter sees
it: the `enabled` flag, and whether `_init_client` produced a client (a valid
`api_key` was configured). -/
structure DeepSeekSettings where
  enabled : Bool
  hasClient : Bool
  deriving DecidableEq, Repr

/-- The configuration snapshot read by the forwarding core
(`bot_config.json` keys used in `handle_message` and the forwarding
methods). -/
structure Config where
  source_channels : List Int
  target_channels : List Int
  filter_content_types : List ContentType
  keyword_filter : List String
  delay_seconds : Nat
  add_source_info : Bool
  preserve_sender : Bool
  notify_admin_on_error : Bool
  paraphrase_rules : List (String × String)
  deepseek : DeepSeekSettings
  deriving DecidableEq, Repr

/-- `TelegramForwardBot.should_filter_message` (bot.py:1025-1040): content-type
blocklist check, then keyword scan over `message.text or message.caption or ""`
with both sides lowercased. -/
def should_filter_message (cfg : Config) (m : Msg) (content_type : ContentType) : Bool :=
  if cfg.filter_content_types.contains content_type then true
  else
    let message_content := pyOrStr m.text m.caption
    if message_content ≠ "" ∧ cfg.keyword_filter ≠ [] then
      cfg.keyword_filter.any (fun kw => containsSub (lowerStr message_content) (lowerStr kw))
    else false

/-- The spec's `shouldFilter` contract, transcribed from its words: true iff
`contentType ∈ contentTypeBlocklist`, or the item's textual content (text body
or caption) contains any blocklisted keyword as a case-insensitive
substring. -/
def shouldFilterSpec (cfg : Config) (m : Msg) (content_type : ContentType) : Bool :=
  cfg.filter_content_types.contains content_type ||
    cfg.keyword_filter.any
      (fun kw => containsSub (lowerStr (pyOrStr m.text m.caption)) (lowerStr kw))

/-- Outcome of the one `chat.completions.create` call made by
`DeepSeekRewriter.rewrite_text`: either a response text or a raised
exception/timeout. -/
inductive ApiOutcome
  | ok (s : String)
  | err (e : String)
  deriving DecidableEq, Repr

/-- `DeepSeekRewriter.rewrite_text` (bot.py:115-154): returns the input when
rewriting is disabled, the client is uninitialized, or the text is
empty/whitespace; otherwise calls the API, returning the stripped response on
success and the input text when the call raises. -/
def rewrite_text (settings : DeepSeekSettings) (api : ApiOutcome) (text : String) : String :=
  if settings.enabled = false then text
  else if settings.hasClient = false then text
  else if text = "" ∨ text.trim = "" then text
  else
    match api with
    | .ok s => s.trim
    | .err _ => text

/-- `TelegramForwardBot.apply_paraphrase_rules` (bot.py:1042-1051):
sequential `str.replace` over the rule dictionary in insertion order. -/
def apply_paraphrase_rules (cfg : Config) (text : String) : String :=
  if cfg.paraphrase_rules = [] ∨ text = "" then text
  else cfg.paraphrase_rules.foldl (fun acc p => acc.replace p.1 p.2) text

/-- `TelegramForwardBot.build_caption` (bot.py:1053-1076): paraphrase rules,
then optional DeepSeek rewrite, then optional source-info block (with sender
when `preserve_sender` and the message has a sender). -/
def build_caption (cfg : Config) (api : ApiOutcome) (m : Msg) : String :=
  let original_text := pyOrStr m.caption m.text
  let t1 := apply_paraphrase_rules cfg original_text
  let t2 := if cfg.deepseek.enabled then rewrite_text cfg.deepseek api t1 else t1
  if cfg.add_source_info then
    let chat_title := if optStrTruthy m.chat_title then m.chat_title.getD ""
                      else toString m.chat_id
    let si := "\n\n📢 来源: " ++ chat_title ++ "\n⏰ 时间: " ++ m.date_str
    let si := if m.from_user.isSome && cfg.preserve_sender then
                si ++ "\n👤 发送者: " ++ m.from_user.getD ""
              else si
    t2 ++ si
  else t2

/-- The `InputMedia*` objects built by `create_input_media`. -/
inductive InputMedia
  | photo (media : String) (caption : Option String)
  | video (media : String) (caption : Option String)
  | document (media : String) (caption : Option String)
  | audio (media : String) (caption : Option String)
  deriving DecidableEq, Repr

/-- The caption carried by an `InputMedia` object. -/
def InputMedia.captionOf : InputMedia → Option String
  | .photo _ c => c
  | .video _ c => c
  | .document _ c => c
  | .audio _ c => c

/-- `TelegramForwardBot.create_input_media` (bot.py:1208-1224): probes photo,
video, document, audio in order; any other message yields `None`. -/
def create_input_media (m : Msg) (caption : Option String) : Option InputMedia :=
  match m.photo with
  | p :: ps => some (InputMedia.photo (List.getLast (p :: ps) (List.cons_ne_nil p ps)) caption)
  | [] =>
    match m.video with
    | some fid => some (InputMedia.video fid caption)
    | none =>
      match m.document with
      | some fid => some (InputMedia.document fid caption)
      | none =>
        match m.audio with
        | some fid => some (InputMedia.audio fid caption)
        | none => none

/-! ## MediaGroupHandler (bot.py:48-83)

`media_groups` is a `defaultdict(str -> list)` and `group_timers` a
`dict(str -> asyncio.Task)`; both are embedded as association lists.  Timer
tasks are given fresh numeric ids (`nextTimer`); `timerGroup` records which
group a timer watches, `cancelled` which tasks have had `.cancel()` called on
them before completing, `begun` which timer bodies have resumed from their
3-second sleep, and `dispatching` which finalizations are inside the
`await forward_callback(messages)` call.  A cancelled task never resumes; a
task cancelled while awaiting the forward callback is killed at that await
(CancelledError is not an `Exception`, so the cleanup lines after the callback
do not run). -/

/-- Association-list lookup (Python `d[k]` / `k in d`). -/
def alookup {κ α : Type} [DecidableEq κ] : List (κ × α) → κ → Option α
  | [], _ => none
  | (k, v) :: rest, key => if k = key then some v else alookup rest key

/-- `defaultdict(list)` append: `d[key].append(x)`. -/
def aappend {κ α : Type} [DecidableEq κ] : List (κ × List α) → κ → α → List (κ × List α)
  | [], key, x => [(key, [x])]
  | (k, v) :: rest, key, x =>
    if k = key then (k, v ++ [x]) :: rest else (k, v) :: aappend rest key x

/-- Dictionary assignment `d[key] = x`. -/
def aset {κ α : Type} [DecidableEq κ] : List (κ × α) → κ → α → List (κ × α)
  | [], key, x => [(key, x)]
  | (k, v) :: rest, key, x =>
    if k = key then (k, x) :: rest else (k, v) :: aset rest key x

/-- Dictionary deletion `del d[key]` (no-op when the key is absent, matching
the guarded `if key in d: del d[key]` uses). -/
def aremove {κ α : Type} [DecidableEq κ] : List (κ × α) → κ → List (κ × α)
  | [], _ => []
  | (k, v) :: rest, key => if k = key then rest else (k, v) :: aremove rest key

/-- The sort key of `messages.sort(key=lambda m: m.message_id)`. -/
def msgLe (a b : Msg) : Prop := a.message_id ≤ b.message_id

instance : DecidableRel msgLe := fun a b => Nat.decLe a.message_id b.message_id

instance : IsTotal Msg msgLe := ⟨fun a b => Nat.le_total a.message_id b.message_id⟩

instance : IsTrans Msg msgLe := ⟨fun _ _ _ hab hbc => Nat.le_trans hab hbc⟩

/-- Runtime state of a `MediaGroupHandler` plus the event-loop bookkeeping of
its debounce timer tasks, and the trace of batches handed to the forward
callback (`emitted`).  `lateAppends` records the ids of messages appended to a
group while a finalization of that same group was already inside its forward
callback. -/
structure CState where
  mediaGroups : List (String × List Msg)
  groupTimers : List (String × Nat)
  nextTimer : Nat
  timerGroup : List (Nat × String)
  cancelled : List Nat
  begun : List Nat
  dispatching : List (Nat × String)
  emitted : List (List Msg)
  lateAppends : List Nat
  deriving DecidableEq, Repr

/-- Fresh `MediaGroupHandler()` state. -/
def cinit : CState := ⟨[], [], 0, [], [], [], [], [], []⟩

/-- Event-loop steps: a call to `add_message`, and the two halves of a timer
task `_process_group_after_timeout` — resuming from its sleep (which sorts the
buffer and enters `await forward_callback`) and returning from the callback
(which deletes the group and timer entries). -/
inductive CEvent
  | submit (m : Msg)
  | fireBegin (tid : Nat)
  | fireEnd (tid : Nat)
  deriving DecidableEq, Repr

/-- One event-loop step.  `submit m` is `MediaGroupHandler.add_message`
(bot.py:56-70): no media-group id means an immediate single-message forward;
otherwise append to the group buffer, cancel the group's current timer task
(killing it mid-callback if it is dispatching), and register a fresh timer.
`fireBegin`/`fireEnd` are `_process_group_after_timeout` (bot.py:72-83) split
at its `await forward_callback(messages)` point; a cancelled or already-run
timer never begins. -/
def cstep (s : CState) : CEvent → CState
  | .submit m =>
    if optStrTruthy m.media_group_id = false then
      { s with emitted := s.emitted ++ [[m]] }
    else
      let gid := m.media_group_id.getD ""
      let la := if s.dispatching.any (fun p => p.2 = gid) then
                  s.lateAppends ++ [m.message_id]
                else s.lateAppends
      let groups := aappend s.mediaGroups gid m
      match alookup s.groupTimers gid with
      | some tcur =>
        { s with
          mediaGroups := groups
          lateAppends := la
          cancelled := s.cancelled ++ [tcur]
          dispatching := s.dispatching.filter (fun p => p.1 ≠ tcur)
          groupTimers := aset s.groupTimers gid s.nextTimer
          timerGroup := s.timerGroup ++ [(s.nextTimer, gid)]
          nextTimer := s.nextTimer + 1 }
      | none =>
        { s with
          mediaGroups := groups
          lateAppends := la
          groupTimers := aset s.groupTimers gid s.nextTimer
          timerGroup := s.timerGroup ++ [(s.nextTimer, gid)]
          nextTimer := s.nextTimer + 1 }
  | .fireBegin tid =>
    if tid ∈ s.cancelled ∨ tid ∈ s.begun then s
    else
      match alookup s.timerGroup tid with
      | none => s
      | some gid =>
        match alookup s.mediaGroups gid with
        | none => { s with begun := s.begun ++ [tid] }
        | some msgs =>
          { s with
            begun := s.begun ++ [tid]
            emitted := s.emitted ++ [List.insertionSort msgLe msgs]
            dispatching := s.dispatching ++ [(tid, gid)] }
  | .fireEnd tid =>
    match alookup s.dispatching tid with
    | none => s
    | some gid =>
      { s with
        mediaGroups := aremove s.mediaGroups gid
        groupTimers := aremove s.groupTimers gid
        dispatching := s.dispatching.filter (fun p => p.1 ≠ tid) }

/-- Run a schedule of event-loop steps from the fresh handler state. -/
def crun (sched : List CEvent) : CState :=
  List.foldl cstep cinit sched

/-- `TelegramForwardBot.handle_message` (bot.py:781-808) restricted to the
forwarding path: drop messages not from a source channel, drop filtered
messages, otherwise hand the message to the media-group handler. -/
def handle_message (cfg : Config) (m : Msg) (s : CState) : CState :=
  if cfg.source_channels.contains m.chat_id = false then s
  else if should_filter_message cfg m (get_message_type m) then s
  else cstep s (CEvent.submit m)

/-! ## ForwardDispatcher (bot.py:1078-1206)

Delivery to one destination may raise; the network is abstracted by an oracle
`sendFail : Int → Option String` giving, per destination chat id, the error
message of the exception raised by the send call there (`none` = the send
succeeds).  The DeepSeek API call inside `build_caption` is abstracted by the
same `ApiOutcome` oracle as `rewrite_text`. -/

/-- The `need_process` test of `forward_single_message` (bot.py:1151-1155):
AI rewrite enabled, or paraphrase rules exist, or source info enabled. -/
def need_process (cfg : Config) : Bool :=
  cfg.deepseek.enabled || decide (cfg.paraphrase_rules ≠ []) || cfg.add_source_info

/-- The Bot-API call `forward_single_message` issues for one destination
(bot.py:1157-1191): a content-type-specific send with the rebuilt caption when
processing is needed, `copy_message` otherwise (and for unhandled types). -/
inductive SendAction
  | sendMessage (text : String)
  | sendPhoto (fileId : String) (caption : String)
  | sendVideo (fileId : String) (caption : String)
  | sendDocument (fileId : String) (caption : String)
  | sendAudio (fileId : String) (caption : String)
  | sendVoice (fileId : String) (caption : String)
  | sendAnimation (fileId : String) (caption : String)
  | copyMessage (fromChat : Int) (messageId : Nat)
  deriving DecidableEq, Repr

/-- `TelegramForwardBot.forward_single_message`, delivery content for each
destination (identical for every destination; bot.py:1149-1191). -/
def single_action (cfg : Config) (api : ApiOutcome) (m : Msg) : SendAction :=
  let content_type := get_message_type m
  if need_process cfg then
    let caption := build_caption cfg api m
    match content_type with
    | .text => .sendMessage caption
    | .photo => .sendPhoto ((m.photo.getLast?).getD "") caption
    | .video => .sendVideo (m.video.getD "") caption
    | .document => .sendDocument (m.document.getD "") caption
    | .audio => .sendAudio (m.audio.getD "") caption
    | .voice => .sendVoice (m.voice.getD "") caption
    | .animation => .sendAnimation (m.animation.getD "") caption
    | _ => .copyMessage m.chat_id m.message_id
  else .copyMessage m.chat_id m.message_id

/-- The `media_list` built by `forward_media_group` for each destination
(bot.py:1105-1115): the first message is encoded with the rebuilt caption of
`messages[0]`, all others without a caption; messages `create_input_media`
rejects are skipped. -/
def media_group_payload (cfg : Config) (api : ApiOutcome) : List Msg → List InputMedia
  | [] => []
  | m0 :: rest =>
    (create_input_media m0 (some (build_caption cfg api m0))).toList
      ++ rest.filterMap (fun m => create_input_media m none)

/-- What one iteration of a dispatcher loop produces for its destination:
a recorded success, a recorded failure, or nothing at all (no send attempted,
nothing logged). -/
inductive DestOutcome
  | success (delivered : Nat)
  | failure (error : String)
  | nothing
  deriving DecidableEq, Repr

/-- The per-(batch, destination) outcome record (success flag, delivered-item
count, error description) written to the forward log. -/
structure DestinationResult where
  target : Int
  success : Bool
  delivered : Nat
  error : Option String
  deriving DecidableEq, Repr

/-- Outcome of one iteration of the `forward_media_group` destination loop
(bot.py:1103-1142): when `media_list` is empty nothing is sent and nothing is
recorded; otherwise the send either succeeds (all messages logged as
forwarded) or raises (caught, all messages logged as failed). -/
def media_group_outcome (cfg : Config) (api : ApiOutcome) (sendFail : Int → Option String)
    (messages : List Msg) (t : Int) : DestOutcome :=
  let media_list := media_group_payload cfg api messages
  if media_list = [] then .nothing
  else
    match sendFail t with
    | none => .success messages.length
    | some e => .failure e

/-- The per-destination outcome records produced by `forward_media_group`
over its whole destination loop. -/
def media_group_results (cfg : Config) (api : ApiOutcome) (sendFail : Int → Option String)
    (messages : List Msg) : List DestinationResult :=
  cfg.target_channels.filterMap (fun t =>
    match media_group_outcome cfg api sendFail messages t with
    | .nothing => none
    | .success k => some ⟨t, true, k, none⟩
    | .failure e => some ⟨t, false, 0, some e⟩)

/-- The destinations for which `forward_media_group` invokes
`notify_admins_error` (bot.py:1141-1142): the failed destinations, when
`notify_admin_on_error` is configured. -/
def media_group_notifications (cfg : Config) (api : ApiOutcome)
    (sendFail : Int → Option String) (messages : List Msg) : List Int :=
  cfg.target_channels.filter (fun t =>
    match media_group_outcome cfg api sendFail messages t with
    | .failure _ => cfg.notify_admin_on_error
    | _ => false)

/-- Outcome of one iteration of the `forward_single_message` destination loop
(bot.py:1149-1206): exactly one send per destination, success or caught
failure. -/
def single_outcome (sendFail : Int → Option String) (t : Int) : DestOutcome :=
  match sendFail t with
  | none => .success 1
  | some e => .failure e

/-- The per-destination outcome records produced by `forward_single_message`
over its whole destination loop. -/
def single_results (cfg : Config) (sendFail : Int → Option String)
    (m : Msg) : List DestinationResult :=
  cfg.target_channels.map (fun t =>
    match single_outcome sendFail t with
    | .success k => ⟨t, true, k, none⟩
    | .failure e => ⟨t, false, 0, some e⟩
    | .nothing => ⟨t, false, 0, none⟩)

/-- The destinations for which `forward_single_message` invokes
`notify_admins_error` (bot.py:1205-1206). -/
def single_notifications (cfg : Config) (sendFail : Int → Option String) : List Int :=
  cfg.target_channels.filter (fun t =>
    match sendFail t with
    | some _ => cfg.notify_admin_on_error
    | none => false)

/-! ## Concrete instances used by witnesses and counterexamples -/

/-- A configuration with no sources, no targets, no filters, no transforms
(matching `load_config` defaults with source info off). -/
def baseCfg : Config :=
  ⟨[], [], [], [], 0, false, false, true, [], ⟨false, false⟩⟩

/-- A deterministic API oracle (never consulted on the passthrough paths). -/
def apiQuiet : ApiOutcome := ApiOutcome.ok ""

/-- Keyword-filter scenario configuration: source channel 100, keyword
blocklist `["spam"]`. -/
def cfgSpam : Config :=
  { baseCfg with source_channels := [100], keyword_filter := ["spam"] }

/-- A photo message captioned "this is spam" from source channel 100. -/
def mSpam : Msg :=
  { baseMsg with message_id := 9, chat_id := 100, caption := some "this is spam",
                 photo := ["p9"] }

/-- An ungrouped text message. -/
def mSolo : Msg :=
  { baseMsg with message_id := 11, chat_id := 5, text := some "hi" }

/-- First photo of a two-photo media group, uncaptioned. -/
def mPhoto1 : Msg :=
  { baseMsg with message_id := 1, chat_id := 100, media_group_id := some "mg",
                 photo := ["f1"] }

/-- Second photo of the same media group, captioned "hello". -/
def mPhoto2 : Msg :=
  { baseMsg with message_id := 2, chat_id := 100, media_group_id := some "mg",
                 photo := ["f2"], caption := some "hello" }

/-- A message carrying both a text body and a photo attachment. -/
def mTextPhoto : Msg :=
  { baseMsg with message_id := 3, text := some "hi", photo := ["fp"] }

/-- Two voice messages sharing a media group (no encodable attachment). -/
def mVoice1 : Msg :=
  { baseMsg with message_id := 4, media_group_id := some "vg", voice := some "v4" }

/-- Second voice message of the same group. -/
def mVoice2 : Msg :=
  { baseMsg with message_id := 5, media_group_id := some "vg", voice := some "v5" }

/-- Configuration with two destination channels. -/
def cfgTwoTargets : Config :=
  { baseCfg with target_channels := [(-100 : Int), (-200 : Int)] }

/-- Send oracle: every destination send succeeds. -/
def sfNone : Int → Option String := fun _ => none

/-- Send oracle: sending to destination `-100` raises "network error", other
destinations succeed. -/
def sfFail100 : Int → Option String :=
  fun t => if t = (-100 : Int) then some "network error" else none

/-- Configuration with a single destination channel. -/
def cfgOneTarget : Config :=
  { baseCfg with target_channels := [(-100 : Int)] }

/-- Single-destination configuration with admin error notification off. -/
def cfgNoNotify : Config :=
  { baseCfg with target_channels := [(-100 : Int)], notify_admin_on_error := false }

/-- Scenario message A: item id 5 in group "g1". -/
def mIdFive : Msg :=
  { baseMsg with message_id := 5, media_group_id := some "g1", photo := ["a5"] }

/-- Scenario message B: item id 3 in group "g1". -/
def mIdThree : Msg :=
  { baseMsg with message_id := 3, media_group_id := some "g1", photo := ["b3"] }

/-- A grouped message submitted twice in the duplicate-id scenario. -/
def mDup : Msg :=
  { baseMsg with message_id := 7, media_group_id := some "gdup", photo := ["d7"] }

/-- First message of the finalize/append race scenario (group "gr"). -/
def mRace1 : Msg :=
  { baseMsg with message_id := 1, media_group_id := some "gr", photo := ["r1"] }

/-- Second message of the race scenario, submitted during the in-flight
finalize of group "gr". -/
def mRace2 : Msg :=
  { baseMsg with message_id := 2, media_group_id := some "gr", photo := ["r2"] }

/-- The racing event-loop schedule: submit message 1; its timer elapses and
finalization begins (dispatch awaited); message 2 arrives during the
dispatch; the cancelled finalize task's cleanup step; then the second timer
runs to completion. -/
def raceSchedule : List CEvent :=
  [CEvent.submit mRace1, CEvent.fireBegin 0, CEvent.submit mRace2,
   CEvent.fireEnd 0, CEvent.fireBegin 1, CEvent.fireEnd 1]

/-! ## Helper lemmas -/

/-- An `InputMedia` built by `create_input_media` with `caption=None` carries
no caption. -/
lemma create_input_media_none_caption (m : Msg) (im : InputMedia)
    (h : create_input_media m none = some im) : im.captionOf = none := by
  unfold create_input_media at h
  cases hp : m.photo with
  | cons p ps =>
    rw [hp] at h
    injection h with h
    subst h
    rfl
  | nil =>
    rw [hp] at h
    cases hv : m.video with
    | some fid => rw [hv] at h; injection h with h; subst h; rfl
    | none =>
      rw [hv] at h
      cases hd : m.document with
      | some fid => rw [hd] at h; injection h with h; subst h; rfl
      | none =>
        rw [hd] at h
        cases ha : m.audio with
        | some fid => rw [ha] at h; injection h with h; subst h; rfl
        | none => rw [ha] at h; exact absurd h (by simp)

/-! ## The claims -/

/-- C4 (corrected): `should_filter_message` returns true **iff** the content
type is blocklisted, or the message's textual content (text body or caption)
is *nonempty* and contains some configured keyword as a case-insensitive
substring; and every filtered item is dropped by `handle_message` before
reaching the media-group handler, so no batch is ever emitted for it.  (As
literally stated the claim fails: for a message with empty textual content
and an empty-string blocklist keyword the spec formula is true — the empty
string is a substring of everything — while the code skips the keyword scan
entirely; the nonemptiness proviso is the only change.) -/
theorem C4_filter_amended (cfg : Config) (m : Msg) (ct : ContentType) (s : CState) :
    (should_filter_message cfg m ct = true
      ↔ (ct ∈ cfg.filter_content_types
          ∨ (pyOrStr m.text m.caption ≠ ""
             ∧ ∃ kw ∈ cfg.keyword_filter,
                 containsSub (lowerStr (pyOrStr m.text m.caption)) (lowerStr kw) = true)))
    ∧ (should_filter_message cfg m (get_message_type m) = true →
        handle_message cfg m s = s) := by
  refine ⟨⟨?_, ?_⟩, ?_⟩
  · intro h2
    by_cases hc : ct ∈ cfg.filter_content_types
    · exact Or.inl hc
    · rw [should_filter_message, if_neg (by simpa using hc)] at h2
      by_cases hcond : pyOrStr m.text m.caption ≠ "" ∧ cfg.keyword_filter ≠ []
      · rw [if_pos hcond] at h2
        exact Or.inr ⟨hcond.1, List.any_eq_true.1 h2⟩
      · rw [if_neg hcond] at h2
        exact absurd h2 (by simp)
  · intro h
    by_cases hc : ct ∈ cfg.filter_content_types
    · rw [should_filter_message, if_pos (by simpa using hc)]
    · rcases h with hc' | ⟨hne, kw, hkw, hsub⟩
      · exact absurd hc' hc
      · rw [should_filter_message, if_neg (by simpa using hc),
            if_pos ⟨hne, List.ne_nil_of_mem hkw⟩]
        exact List.any_eq_true.2 ⟨kw, hkw, hsub⟩
  · intro h3
    by_cases hs : cfg.source_channels.contains m.chat_id = false
    · rw [handle_message, if_pos hs]
    · rw [handle_message, if_neg hs, if_pos h3]

/-- C4 counterexample: with keyword blocklist `[""]` and a message with no
text and no caption, the spec's `shouldFilter` formula holds (the empty
keyword is a case-insensitive substring of the empty content) but the code
returns `False`. -/
theorem C4_filter_counterexample :
    should_filter_message { baseCfg with keyword_filter := [""] } baseMsg ContentType.other
        = false
    ∧ shouldFilterSpec { baseCfg with keyword_filter := [""] } baseMsg ContentType.other
        = true := by
  decide

/-- C4 witness: the spec scenario — keyword blocklist `["spam"]`, a photo
captioned "this is spam" from a source channel satisfies the amended iff, and
`handle_message` drops it before the aggregator: the handler state is
unchanged, so no batch is ever emitted for it. -/
theorem C4_filter_witness :
    (should_filter_message cfgSpam mSpam (get_message_type mSpam) = true
      ↔ (get_message_type mSpam ∈ cfgSpam.filter_content_types
          ∨ (pyOrStr mSpam.text mSpam.caption ≠ ""
             ∧ ∃ kw ∈ cfgSpam.keyword_filter,
                 containsSub (lowerStr (pyOrStr mSpam.text mSpam.caption))
                   (lowerStr kw) = true)))
    ∧ handle_message cfgSpam mSpam cinit = cinit :=
  ⟨(C4_filter_amended cfgSpam mSpam (get_message_type mSpam) cinit).1,
   (C4_filter_amended cfgSpam mSpam (get_message_type mSpam) cinit).2 (by decide)⟩

/-- C5 (confirmed): a message without a media-group id is immediately handed
to the forward callback as a single-message batch — no group buffer is
touched, no debounce timer is created, and the emitted trace is extended by
exactly `[[m]]`. -/
theorem C5_no_group_immediate (m : Msg) (s : CState) (h : m.media_group_id = none) :
    cstep s (CEvent.submit m) = { s with emitted := s.emitted ++ [[m]] } := by
  simp [cstep, h, optStrTruthy]

/-- C5 witness: a concrete ungrouped text message is forwarded immediately
from the fresh handler state. -/
theorem C5_no_group_immediate_witness :
    cstep cinit (CEvent.submit mSolo) = { cinit with emitted := cinit.emitted ++ [[mSolo]] } :=
  C5_no_group_immediate mSolo cinit rfl

/-- C6 (corrected): when no transformation is configured (`need_process`
false: AI rewrite disabled, no paraphrase rules, source info off),
`forward_single_message` delivers every destination a `copy_message` of the
source message — a verbatim, byte-identical passthrough.  (As literally
stated the claim fails for multi-item batches: `forward_media_group` has no
passthrough path and always re-encodes via `build_caption`/`InputMedia`, see
the counterexample.) -/
theorem C6_passthrough_amended (cfg : Config) (api : ApiOutcome) (m : Msg)
    (h : need_process cfg = false) :
    single_action cfg api m = SendAction.copyMessage m.chat_id m.message_id := by
  simp [single_action, h]

/-- C6 counterexample: with no transformation configured, a two-photo media
group whose second item carries the caption "hello" is re-encoded: the first
outgoing item gets the rebuilt (empty) caption and the second none, so the
original caption string survives nowhere — the delivered payload is not
byte-identical to the source. -/
theorem C6_passthrough_counterexample :
    need_process baseCfg = false
    ∧ mPhoto2.caption = some "hello"
    ∧ media_group_payload baseCfg apiQuiet [mPhoto1, mPhoto2]
        = [InputMedia.photo "f1" (some ""), InputMedia.photo "f2" none]
    ∧ ∀ im ∈ media_group_payload baseCfg apiQuiet [mPhoto1, mPhoto2],
        InputMedia.captionOf im ≠ some "hello" := by
  decide

/-- C6 witness: a concrete message under the transform-free configuration is
dispatched as a `copy_message` passthrough. -/
theorem C6_passthrough_witness :
    single_action baseCfg apiQuiet mSolo
      = SendAction.copyMessage mSolo.chat_id mSolo.message_id :=
  C6_passthrough_amended baseCfg apiQuiet mSolo (by decide)

/-- C7 (confirmed): in the `media_list` that `forward_media_group` builds for
a batch of more than one item, any outgoing item that carries a caption is
the encoding of the batch's first message with the rebuilt group caption;
every item encoded from the remaining messages is sent without a caption. -/
theorem C7_caption_first_only (cfg : Config) (api : ApiOutcome) (m0 : Msg)
    (rest : List Msg) (h1 : rest ≠ []) (im : InputMedia)
    (him : im ∈ media_group_payload cfg api (m0 :: rest))
    (hcap : im.captionOf ≠ none) :
    create_input_media m0 (some (build_caption cfg api m0)) = some im := by
  unfold media_group_payload at him
  rcases List.mem_append.1 him with hin | hin
  · cases hco : create_input_media m0 (some (build_caption cfg api m0)) with
    | none => rw [hco] at hin; exact absurd hin (by simp)
    | some x =>
      rw [hco] at hin
      simp only [Option.toList, List.mem_singleton] at hin
      rw [hin]
  · rcases List.mem_filterMap.1 hin with ⟨m, _, hcm⟩
    exact absurd (create_input_media_none_caption m im hcm) hcap

/-- C7 witness: in a concrete two-photo group, the only captioned outgoing
item is the first message's encoding. -/
theorem C7_caption_first_only_witness :
    create_input_media mPhoto1 (some (build_caption baseCfg apiQuiet mPhoto1))
      = some (InputMedia.photo "f1" (some "")) :=
  C7_caption_first_only baseCfg apiQuiet mPhoto1 [mPhoto2] (by decide)
    (InputMedia.photo "f1" (some "")) (by decide) (by decide)

/-- C9 (confirmed): `rewrite_text` returns its input unchanged whenever the
DeepSeek client is uninitialized or the API call raises (failure or timeout);
since the exception is caught inside `rewrite_text`, the failure never
escapes into `build_caption` or dispatch. -/
theorem C9_rewrite_fallback (settings : DeepSeekSettings) (api : ApiOutcome)
    (text : String)
    (h : settings.hasClient = false ∨ ∃ e, api = ApiOutcome.err e) :
    rewrite_text settings api text = text := by
  rcases h with h | ⟨e, rfl⟩
  · simp [rewrite_text, h]
  · unfold rewrite_text
    split
    · rfl
    · split
      · rfl
      · split
        · rfl
        · rfl

/-- C9 witness: a concrete failing API call leaves the caption text
unchanged. -/
theorem C9_rewrite_fallback_witness :
    rewrite_text ⟨true, true⟩ (ApiOutcome.err "timeout") "hello world" = "hello world" :=
  C9_rewrite_fallback ⟨true, true⟩ (ApiOutcome.err "timeout") "hello world"
    (Or.inr ⟨"timeout", rfl⟩)

/-- `filterMap` of a constantly-`none` function yields the empty list. -/
lemma filterMap_const_none {α β : Type} (l : List α) :
    l.filterMap (fun _ => (none : Option β)) = [] := by
  induction l with
  | nil => rfl
  | cons a l ih => simp [List.filterMap_cons, ih]

/-- `create_input_media` succeeds exactly on messages carrying a photo,
video, document or audio attachment. -/
lemma create_input_media_isSome (m : Msg) (cap : Option String) :
    (create_input_media m cap).isSome
      ↔ (m.photo ≠ [] ∨ m.video.isSome ∨ m.document.isSome ∨ m.audio.isSome) := by
  unfold create_input_media
  cases hp : m.photo with
  | cons p ps => simp
  | nil =>
    cases hv : m.video with
    | some fid => simp
    | none =>
      cases hd : m.document with
      | some fid => simp
      | none =>
        cases ha : m.audio with
        | some fid => simp
        | none => simp

/-- For a message without a (truthy) text body, encodability by
`create_input_media` coincides with `get_message_type` being photo, video,
document or audio. -/
lemma encodable_iff_content_type (m : Msg) (cap : Option String)
    (ht : optStrTruthy m.text = false) :
    (create_input_media m cap).isSome
      ↔ get_message_type m
          ∈ [ContentType.photo, ContentType.video, ContentType.document, ContentType.audio] := by
  rw [create_input_media_isSome]
  unfold get_message_type
  rw [ht]
  cases hp : m.photo with
  | cons p ps => simp
  | nil =>
    cases hv : m.video with
    | some fid => simp
    | none =>
      cases hd : m.document with
      | some fid => simp
      | none =>
        cases ha : m.audio with
        | some fid => simp
        | none =>
          simp only [hp, hv, hd, ha, Option.isSome_none, Bool.false_eq_true, if_false,
            ne_eq, not_true_eq_false, or_self, false_iff, if_true]
          cases hvo : m.voice with
          | some fid => simp
          | none =>
            cases hst : m.sticker with
            | some fid => simp
            | none =>
              cases han : m.animation with
              | some fid => simp
              | none =>
                cases hlo : m.location with
                | true => simp
                | false =>
                  cases hpo : m.poll with
                  | true => simp
                  | false => simp

/-- C10 (corrected): a batch item is encoded into the outgoing grouped unit
iff it carries a photo, video, document or audio attachment — which, for
items without a text body (as all real media-group members are), is exactly
content type photo/video/document/audio; every other item is silently
omitted; and when no item of the batch is encodable, `forward_media_group`
sends nothing to any destination and records no outcome at all.  (As
literally stated the claim fails: a message carrying both a text body and a
photo has content type `text` yet is encoded, see the counterexample.) -/
theorem C10_encoding_amended (m : Msg) (cap : Option String) (cfg : Config)
    (api : ApiOutcome) (sf : Int → Option String) (msgs : List Msg) :
    ((create_input_media m cap).isSome
      ↔ (m.photo ≠ [] ∨ m.video.isSome ∨ m.document.isSome ∨ m.audio.isSome))
    ∧ (optStrTruthy m.text = false →
        ((create_input_media m cap).isSome
          ↔ get_message_type m
              ∈ [ContentType.photo, ContentType.video, ContentType.document,
                 ContentType.audio]))
    ∧ (media_group_payload cfg api msgs = [] →
        (∀ t, media_group_outcome cfg api sf msgs t = DestOutcome.nothing)
        ∧ media_group_results cfg api sf msgs = []
        ∧ media_group_notifications cfg api sf msgs = []) := by
  refine ⟨create_input_media_isSome m cap, encodable_iff_content_type m cap, ?_⟩
  intro hpay
  have hout : ∀ t, media_group_outcome cfg api sf msgs t = DestOutcome.nothing := by
    intro t
    simp [media_group_outcome, hpay]
  refine ⟨hout, ?_, ?_⟩
  · unfold media_group_results
    have : (fun t =>
        match media_group_outcome cfg api sf msgs t with
        | .nothing => (none : Option DestinationResult)
        | .success k => some ⟨t, true, k, none⟩
        | .failure e => some ⟨t, false, 0, some e⟩)
        = fun _ => (none : Option DestinationResult) := by
      funext t
      rw [hout t]
    rw [this, filterMap_const_none]
  · unfold media_group_notifications
    rw [List.filter_eq_nil_iff.2]
    intro t _
    rw [hout t]
    simp

/-- C10 counterexample: a message carrying both a text body ("hi") and a
photo has content type `text` — not photo, video, document or audio — yet
`create_input_media` encodes it into the grouped unit. -/
theorem C10_encoding_counterexample :
    get_message_type mTextPhoto = ContentType.text
    ∧ (create_input_media mTextPhoto none).isSome = true
    ∧ get_message_type mTextPhoto
        ∉ [ContentType.photo, ContentType.video, ContentType.document,
           ContentType.audio] := by
  decide

/-- C10 witness: a batch of two voice messages is not encodable; no send is
attempted for the configured destination and no outcome is recorded. -/
theorem C10_encoding_witness :
    (∀ t, media_group_outcome cfgTwoTargets apiQuiet sfNone [mVoice1, mVoice2] t
        = DestOutcome.nothing)
    ∧ media_group_results cfgTwoTargets apiQuiet sfNone [mVoice1, mVoice2] = []
    ∧ media_group_notifications cfgTwoTargets apiQuiet sfNone [mVoice1, mVoice2] = [] :=
  (C10_encoding_amended mVoice1 none cfgTwoTargets apiQuiet sfNone
    [mVoice1, mVoice2]).2.2 (by decide)

/-- C3 (corrected): `forward_single_message` always records exactly one
outcome per configured destination; `forward_media_group` does so provided
the batch has at least one encodable item; an exception at one destination is
caught and recorded as a failure for that destination only, every other
destination still being attempted (each destination's result depends only on
its own send); and — when `notify_admin_on_error` is configured — the admin
notifier is invoked exactly for the failed destinations.  (As literally
stated the claim fails twice: a grouped batch with no encodable item records
no outcome at all, and with `notify_admin_on_error` off the notifier is never
invoked; see the counterexample.) -/
theorem C3_dispatch_amended (cfg : Config) (api : ApiOutcome) (sf : Int → Option String)
    (msgs : List Msg) (m : Msg) :
    ((single_results cfg sf m).map DestinationResult.target = cfg.target_channels)
    ∧ (media_group_payload cfg api msgs ≠ [] →
        (media_group_results cfg api sf msgs).map DestinationResult.target
          = cfg.target_channels)
    ∧ (∀ t e, t ∈ cfg.target_channels → sf t = some e →
        media_group_payload cfg api msgs ≠ [] →
        (⟨t, false, 0, some e⟩ : DestinationResult)
          ∈ media_group_results cfg api sf msgs)
    ∧ (cfg.notify_admin_on_error = true → media_group_payload cfg api msgs ≠ [] →
        media_group_notifications cfg api sf msgs
          = cfg.target_channels.filter (fun t => (sf t).isSome))
    ∧ (cfg.notify_admin_on_error = true →
        single_notifications cfg sf = cfg.target_channels.filter (fun t => (sf t).isSome)) := by
  refine ⟨?_, ?_, ?_, ?_, ?_⟩
  · unfold single_results single_outcome
    rw [List.map_map]
    refine List.map_id'' (fun t => ?_) _
    simp only [Function.comp_apply]
    cases hsf : sf t <;> simp [hsf]
  · intro hpay
    unfold media_group_results
    have haux : ∀ l : List Int,
        (l.filterMap (fun t =>
          match media_group_outcome cfg api sf msgs t with
          | .nothing => none
          | .success k => some ⟨t, true, k, none⟩
          | .failure e => some ⟨t, false, 0, some e⟩)).map DestinationResult.target = l := by
      intro l
      induction l with
      | nil => rfl
      | cons a l ih =>
        rw [List.filterMap_cons]
        cases ho : media_group_outcome cfg api sf msgs a with
        | nothing =>
          exact absurd ho (by unfold media_group_outcome
                              rw [if_neg hpay]
                              cases sf a <;> simp)
        | success k => simp [ho, ih]
        | failure e => simp [ho, ih]
    exact haux cfg.target_channels
  · intro t e ht he hpay
    refine List.mem_filterMap.2 ⟨t, ht, ?_⟩
    simp [media_group_outcome, hpay, he]
  · intro hn hpay
    refine List.filter_congr ?_
    intro t _
    unfold media_group_outcome
    rw [if_neg hpay]
    cases hsf : sf t <;> simp [hn, hsf]
  · intro hn
    refine List.filter_congr ?_
    intro t _
    cases hsf : sf t <;> simp [hn, hsf]

/-- C3 counterexample: a one-destination configuration dispatching a grouped
batch of two voice messages records zero outcomes instead of one; and with
`notify_admin_on_error` off, a failing single-message send records its
failure but invokes the admin notifier zero times instead of once. -/
theorem C3_dispatch_counterexample :
    cfgOneTarget.target_channels.length = 1
    ∧ media_group_results cfgOneTarget apiQuiet sfNone [mVoice1, mVoice2] = []
    ∧ single_results cfgNoNotify sfFail100 mSolo
        = [⟨(-100 : Int), false, 0, some "network error"⟩]
    ∧ single_notifications cfgNoNotify sfFail100 = [] := by
  decide

/-- C3 witness: the spec scenario — two destinations, destination `-100`
raises, destination `-200` succeeds: one outcome per destination, the failure
recorded for `-100` only, and the admin notifier invoked exactly for
`-100`. -/
theorem C3_dispatch_witness :
    ((single_results cfgTwoTargets sfFail100 mSolo).map DestinationResult.target
        = cfgTwoTargets.target_channels)
    ∧ (⟨(-100 : Int), false, 0, some "network error"⟩ : DestinationResult)
        ∈ media_group_results cfgTwoTargets apiQuiet sfFail100 [mPhoto1, mPhoto2]
    ∧ media_group_notifications cfgTwoTargets apiQuiet sfFail100 [mPhoto1, mPhoto2]
        = [(-100 : Int)] :=
  ⟨(C3_dispatch_amended cfgTwoTargets apiQuiet sfFail100 [mPhoto1, mPhoto2] mSolo).1,
   (C3_dispatch_amended cfgTwoTargets apiQuiet sfFail100 [mPhoto1, mPhoto2] mSolo).2.2.1
     (-100) "network error" (by decide) (by decide) (by decide),
   Eq.trans
     ((C3_dispatch_amended cfgTwoTargets apiQuiet sfFail100 [mPhoto1, mPhoto2] mSolo).2.2.2.1
       (by decide) (by decide))
     (by decide)⟩

/-- Looking up a freshly appended key whose id is new to the table. -/
lemma alookup_append_last (tg : List (Nat × String)) (n : Nat) (g : String)
    (h : ∀ p ∈ tg, p.1 ≠ n) : alookup (tg ++ [(n, g)]) n = some g := by
  induction tg with
  | nil => simp [alookup]
  | cons p tg ih =>
    obtain ⟨k, v⟩ := p
    have hk : k ≠ n := h (k, v) (by simp)
    simp only [List.cons_append, alookup, if_neg hk]
    exact ih (fun q hq => h q (by simp [hq]))

/-- Folding a run of `add_message` calls for one group `g` over a state in
which `g` is the only pending group: the buffer grows by exactly the
submitted messages, each call cancels the previous debounce timer and
registers a fresh one, and nothing is emitted. -/
lemma submits_group_fold (g : String) (hg : g ≠ "") :
    ∀ rest : List Msg, (∀ x ∈ rest, x.media_group_id = some g) →
    ∀ (buf : List Msg) (t n : Nat) (tg : List (Nat × String)) (cc : List Nat)
      (em : List (List Msg)) (la : List Nat),
      t < n → (∀ c ∈ cc, c < t) → (∀ p ∈ tg, p.1 < n) → alookup tg t = some g →
      ∃ t' cc' tg',
        List.foldl cstep ⟨[(g, buf)], [(g, t)], n, tg, cc, [], [], em, la⟩
            (rest.map CEvent.submit)
          = ⟨[(g, buf ++ rest)], [(g, t')], n + rest.length, tg', cc', [], [], em, la⟩
        ∧ t' < n + rest.length
        ∧ (∀ c ∈ cc', c < t')
        ∧ (∀ p ∈ tg', p.1 < n + rest.length)
        ∧ alookup tg' t' = some g := by
  intro rest
  induction rest with
  | nil =>
    intro _ buf t n tg cc em la htn hcc htg hlook
    exact ⟨t, cc, tg, by simp, by omega, hcc,
           fun p hp => by have := htg p hp; omega, hlook⟩
  | cons x rest ih =>
    intro hall buf t n tg cc em la htn hcc htg hlook
    have hx : x.media_group_id = some g := hall x (by simp)
    have hstep : cstep ⟨[(g, buf)], [(g, t)], n, tg, cc, [], [], em, la⟩ (CEvent.submit x)
        = ⟨[(g, buf ++ [x])], [(g, n)], n + 1, tg ++ [(n, g)], cc ++ [t], [], [], em, la⟩ := by
      simp [cstep, hx, optStrTruthy, hg, aappend, aset, alookup]
    rw [List.map_cons, List.foldl_cons, hstep]
    obtain ⟨t', cc', tg', heq, hlt, hcc', htg', hlook'⟩ :=
      ih (fun y hy => hall y (by simp [hy])) (buf ++ [x]) n (n + 1)
        (tg ++ [(n, g)]) (cc ++ [t]) em la (by omega)
        (fun c hc => by
          rcases List.mem_append.1 hc with h | h
          · exact lt_trans (hcc c h) htn
          · simp only [List.mem_singleton] at h
            omega)
        (fun p hp => by
          rcases List.mem_append.1 hp with h | h
          · have := htg p h; omega
          · simp only [List.mem_singleton] at h
            subst h
            simp)
        (alookup_append_last tg n g (fun p hp => Nat.ne_of_lt (htg p hp)))
    refine ⟨t', cc', tg', ?_, ?_, hcc', ?_, hlook'⟩
    · rw [heq]
      have hl1 : buf ++ [x] ++ rest = buf ++ x :: rest := by simp
      have hl2 : n + 1 + rest.length = n + (x :: rest).length := by
        simp only [List.length_cons]
        omega
      rw [hl1, hl2]
    · simp only [List.length_cons]
      omega
    · intro p hp
      have := htg' p hp
      simp only [List.length_cons]
      omega

/-- The clean debounce scenario for one group `g`: all submissions arrive
before any timer fires (each submission cancels the previous timer), then the
last registered timer runs to completion.  Exactly one batch — the
id-sorted buffer — is handed to the forward callback, and the group's buffer
and timer entries are removed. -/
lemma crun_group_scenario (g : String) (msgs : List Msg) (hg : g ≠ "")
    (hne : msgs ≠ []) (hall : ∀ x ∈ msgs, x.media_group_id = some g) :
    ∃ tid,
      alookup (crun (msgs.map CEvent.submit)).groupTimers g = some tid
      ∧ (crun (msgs.map CEvent.submit ++ [CEvent.fireBegin tid, CEvent.fireEnd tid])).emitted
          = [List.insertionSort msgLe msgs]
      ∧ (crun (msgs.map CEvent.submit ++ [CEvent.fireBegin tid, CEvent.fireEnd tid])).mediaGroups
          = []
      ∧ (crun (msgs.map CEvent.submit ++ [CEvent.fireBegin tid, CEvent.fireEnd tid])).groupTimers
          = []
      ∧ (crun (msgs.map CEvent.submit ++ [CEvent.fireBegin tid, CEvent.fireEnd tid])).lateAppends
          = [] := by
  obtain ⟨m0, rest, rfl⟩ : ∃ m0 rest, msgs = m0 :: rest := by
    cases msgs with
    | nil => exact absurd rfl hne
    | cons a l => exact ⟨a, l, rfl⟩
  have h0 : m0.media_group_id = some g := hall m0 (by simp)
  have hfirst : cstep cinit (CEvent.submit m0)
      = ⟨[(g, [m0])], [(g, 0)], 1, [(0, g)], [], [], [], [], []⟩ := by
    simp [cstep, cinit, h0, optStrTruthy, hg, aappend, aset, alookup]
  obtain ⟨t', cc', tg', heq, hlt, hcc', htg', hlook'⟩ :=
    submits_group_fold g hg rest (fun y hy => hall y (by simp [hy])) [m0] 0 1
      [(0, g)] [] [] [] (by omega) (by simp) (by simp) (by simp [alookup])
  have hsubmits : crun ((m0 :: rest).map CEvent.submit)
      = ⟨[(g, m0 :: rest)], [(g, t')], 1 + rest.length, tg', cc', [], [], [], []⟩ := by
    rw [crun, List.map_cons, List.foldl_cons, hfirst]
    simpa using heq
  have hnotc : t' ∉ cc' := fun hmem => absurd (hcc' t' hmem) (lt_irrefl t')
  have hbegin :
      cstep ⟨[(g, m0 :: rest)], [(g, t')], 1 + rest.length, tg', cc', [], [], [], []⟩
          (CEvent.fireBegin t')
        = ⟨[(g, m0 :: rest)], [(g, t')], 1 + rest.length, tg', cc', [t'], [(t', g)],
           [List.insertionSort msgLe (m0 :: rest)], []⟩ := by
    simp [cstep, hnotc, hlook', alookup]
  have hend :
      cstep ⟨[(g, m0 :: rest)], [(g, t')], 1 + rest.length, tg', cc', [t'], [(t', g)],
             [List.insertionSort msgLe (m0 :: rest)], []⟩ (CEvent.fireEnd t')
        = ⟨[], [], 1 + rest.length, tg', cc', [t'], [],
           [List.insertionSort msgLe (m0 :: rest)], []⟩ := by
    simp [cstep, alookup, aremove]
  have hrun : crun ((m0 :: rest).map CEvent.submit
        ++ [CEvent.fireBegin t', CEvent.fireEnd t'])
      = ⟨[], [], 1 + rest.length, tg', cc', [t'], [],
         [List.insertionSort msgLe (m0 :: rest)], []⟩ := by
    rw [crun, List.foldl_append, ← crun, hsubmits, List.foldl_cons, hbegin,
        List.foldl_cons, hend, List.foldl_nil]
  exact ⟨t', by rw [hsubmits]; simp [alookup], by rw [hrun], by rw [hrun],
         by rw [hrun], by rw [hrun]⟩

/-- C1 (confirmed): when every message of a nonempty sequence carries the
same (nonempty) media-group id and all are submitted before the group's
debounce timer fires — each submission cancelling the previous timer — then
once the last registered timer elapses and completes, exactly one batch is
handed to the forward callback: the full buffer sorted ascending by
`message_id` (a permutation of the submitted messages), and the group's
pending entries are removed. -/
theorem C1_debounce_single_sorted_batch (g : String) (msgs : List Msg) (hg : g ≠ "")
    (hne : msgs ≠ []) (hall : ∀ x ∈ msgs, x.media_group_id = some g) :
    ∃ tid,
      alookup (crun (msgs.map CEvent.submit)).groupTimers g = some tid
      ∧ (crun (msgs.map CEvent.submit ++ [CEvent.fireBegin tid, CEvent.fireEnd tid])).emitted
          = [List.insertionSort msgLe msgs]
      ∧ (List.insertionSort msgLe msgs).Perm msgs
      ∧ List.Sorted msgLe (List.insertionSort msgLe msgs)
      ∧ (crun (msgs.map CEvent.submit ++ [CEvent.fireBegin tid, CEvent.fireEnd tid])).mediaGroups
          = [] := by
  obtain ⟨tid, h1, h2, h3, _, _⟩ := crun_group_scenario g msgs hg hne hall
  exact ⟨tid, h1, h2, List.perm_insertionSort msgLe msgs,
         List.sorted_insertionSort msgLe msgs, h3⟩

/-- C1 witness: the spec scenario — A(id 5) and B(id 3) sharing group "g1"
are submitted within the window; after the window one batch [B, A] (ids 3, 5)
is handed to the forward callback. -/
theorem C1_debounce_single_sorted_batch_witness :
    ∃ tid,
      alookup (crun ([mIdFive, mIdThree].map CEvent.submit)).groupTimers "g1" = some tid
      ∧ (crun ([mIdFive, mIdThree].map CEvent.submit
            ++ [CEvent.fireBegin tid, CEvent.fireEnd tid])).emitted
          = [List.insertionSort msgLe [mIdFive, mIdThree]]
      ∧ (List.insertionSort msgLe [mIdFive, mIdThree]).Perm [mIdFive, mIdThree]
      ∧ List.Sorted msgLe (List.insertionSort msgLe [mIdFive, mIdThree])
      ∧ (crun ([mIdFive, mIdThree].map CEvent.submit
            ++ [CEvent.fireBegin tid, CEvent.fireEnd tid])).mediaGroups = [] :=
  C1_debounce_single_sorted_batch "g1" [mIdFive, mIdThree] (by decide) (by decide)
    (by decide)

/-- C8 (corrected): the aggregator itself never deduplicates — uniqueness of
item ids in an emitted batch holds exactly when the submitted sequence for
the group already has pairwise-distinct message ids, in which case the
emitted batch (a permutation of the buffer) has unique ids.  (As literally
stated — "regardless of the submitted sequence" — the claim fails:
`add_message` appends unconditionally, see the counterexample.) -/
theorem C8_unique_ids_amended (g : String) (msgs : List Msg) (hg : g ≠ "")
    (hne : msgs ≠ []) (hall : ∀ x ∈ msgs, x.media_group_id = some g)
    (hnodup : (msgs.map Msg.message_id).Nodup) :
    ∃ tid,
      alookup (crun (msgs.map CEvent.submit)).groupTimers g = some tid
      ∧ ∀ b ∈ (crun (msgs.map CEvent.submit
            ++ [CEvent.fireBegin tid, CEvent.fireEnd tid])).emitted,
          (b.map Msg.message_id).Nodup := by
  obtain ⟨tid, h1, h2, _, _, _⟩ := crun_group_scenario g msgs hg hne hall
  refine ⟨tid, h1, ?_⟩
  intro b hb
  rw [h2, List.mem_singleton] at hb
  subst hb
  exact (((List.perm_insertionSort msgLe msgs).map Msg.message_id).nodup_iff).2 hnodup

/-- C8 counterexample: submitting the same message (id 7) twice to its group
yields an emitted batch containing two items with the same item id. -/
theorem C8_unique_ids_counterexample :
    (crun [CEvent.submit mDup, CEvent.submit mDup,
           CEvent.fireBegin 1, CEvent.fireEnd 1]).emitted = [[mDup, mDup]]
    ∧ ¬ (([mDup, mDup].map Msg.message_id).Nodup) := by
  decide

/-- C8 witness: the two distinct-id messages of the C1 scenario produce a
batch with unique item ids. -/
theorem C8_unique_ids_witness :
    ∃ tid,
      alookup (crun ([mIdFive, mIdThree].map CEvent.submit)).groupTimers "g1" = some tid
      ∧ ∀ b ∈ (crun ([mIdFive, mIdThree].map CEvent.submit
            ++ [CEvent.fireBegin tid, CEvent.fireEnd tid])).emitted,
          (b.map Msg.message_id).Nodup :=
  C8_unique_ids_amended "g1" [mIdFive, mIdThree] (by decide) (by decide) (by decide)
    (by decide)

/-- C2 (code bug): the atomicity the spec requires between item append and
finalization is violated by the code.  In the modelled event-loop schedule,
message 1 of group "gr" is submitted and its debounce timer fires; while the
finalize is inside `await forward_callback([m1])`, message 2 of the same
group is submitted: it is appended to the group's buffer *after*
finalization has begun (`lateAppends = [2]`), and `add_message` cancels the
in-flight finalize task mid-callback (`CancelledError` skips the cleanup
lines), so the group entry survives and the second timer emits the buffer
again — the group's content is handed to the dispatcher twice
(message 1 occurs in both emitted batches). -/
theorem C2_finalize_race_evaluation :
    (crun raceSchedule).lateAppends = [mRace2.message_id]
    ∧ (crun raceSchedule).emitted = [[mRace1], [mRace1, mRace2]] := by
  decide

